import Mathlib

/-!
Verification development for the nvidia-gpu-monitor package (index.js,
src/NvidiaGpuInfo.js, src/GpuUtilizationSma.js).  JavaScript dictionaries are
embedded as association lists over `Nat` keys, JS `Set`s as duplicate-free
lists in insertion order, timers as optional `(id, delayMsec)` records where
`id` is drawn from a per-state counter (each `setTimeout` call in the source
produces a fresh timer object, which the counter makes observable), and JS
numbers as `Int`/`Rat`, with a dedicated type for the `undefined`/`NaN`
values that arise in the memory-sample path.
-/

namespace GpuMon

/-- Lookup in an association list, mirroring JS property access `dict[k]`
(`none` plays the role of `undefined`). -/
def alookup {α : Type} : List (Nat × α) → Nat → Option α
  | [], _ => none
  | (k, v) :: rest, key => if k = key then some v else alookup rest key

/-- Assignment `dict[k] = v`: overwrite in place if present, else append. -/
def aset {α : Type} : List (Nat × α) → Nat → α → List (Nat × α)
  | [], key, val => [(key, val)]
  | (k, v) :: rest, key, val =>
    if k = key then (k, val) :: rest else (k, v) :: aset rest key val

/-- JS `Set.prototype.add`: no-op when the element is present, else append
(JS sets keep insertion order). -/
def setAdd (l : List Nat) (x : Nat) : List Nat :=
  if l.contains x then l else l ++ [x]

/-- Per-core state of `GpuUtilizationSma`: the source keeps two parallel maps
`_utilizationCollection[coreId]` (the FIFO window) and
`_utilizationSumCollection[coreId]` (the running sum); they are created and
updated together, so we pair them per key. -/
structure SmaEntry where
  window : List Int
  sum : Int
deriving Repr, DecidableEq

/-- The per-key dictionaries of a `GpuUtilizationSma` instance. -/
abbrev SmaState := List (Nat × SmaEntry)

/-- One iteration of the `for (const coreId in gpuCoresUsage)` loop body of
`GpuUtilizationSma.getUsage`, for key `coreId` with raw value `v`
(src/GpuUtilizationSma.js lines 17-33): push the value into the window and
running sum (creating them on first observation, which equals pushing into an
empty window), and if the window length now equals `periodPoints`, report
`Math.floor(sum / periodPoints)` and shift out the oldest point, otherwise
report the default 100 set at the top of the loop. -/
def smaKeyStep (periodPoints : Nat) (st : SmaState) (coreId : Nat) (v : Int) :
    Int × SmaState :=
  match alookup st coreId with
  | some e =>
    let w0 := e.window ++ [v]
    let s0 := e.sum + v
    if w0.length = periodPoints then
      (Int.fdiv s0 periodPoints, aset st coreId ⟨w0.drop 1, s0 - w0.headD 0⟩)
    else
      (100, aset st coreId ⟨w0, s0⟩)
  | none =>
    let w0 := [v]
    let s0 := v
    if w0.length = periodPoints then
      (Int.fdiv s0 periodPoints, aset st coreId ⟨w0.drop 1, s0 - w0.headD 0⟩)
    else
      (100, aset st coreId ⟨w0, s0⟩)

/-- Source `GpuUtilizationSma.getUsage(gpuCoresUsage)`: iterate the loop body over
the input collection, returning the `utilizationSma` result dictionary and
the updated instance state. -/
def getUsage (periodPoints : Nat) (st : SmaState) :
    List (Nat × Int) → List (Nat × Int) × SmaState
  | [] => ([], st)
  | (coreId, v) :: rest =>
    let r := smaKeyStep periodPoints st coreId v
    let tl := getUsage periodPoints r.2 rest
    ((coreId, r.1) :: tl.1, tl.2)

/-- The per-key view of an SMA state: the entry for a key, with a missing key
read as an empty window with zero sum (the creation branch of the loop body
behaves exactly like pushing into that empty entry). -/
def entryOf (st : SmaState) (coreId : Nat) : SmaEntry :=
  (alookup st coreId).getD ⟨[], 0⟩

/-- A sequence of observations of one key `coreId`: each raw value is fed to
`getUsage` in a collection containing that key, and the smoothed value
reported for the key is collected. -/
def smaRun (periodPoints : Nat) (st : SmaState) (coreId : Nat) :
    List Int → List Int
  | [] => []
  | v :: vs =>
    let r := getUsage periodPoints st [(coreId, v)]
    ((alookup r.1 coreId).getD 100) :: smaRun periodPoints r.2 coreId vs

/-- The window kept for a key after the raw values `pre` have been observed:
the most recent `periodPoints - 1` of them (all of them while fewer have
arrived). -/
def winOf (periodPoints : Nat) (pre : List Int) : List Int :=
  pre.drop (pre.length + 1 - periodPoints)

/-- Decidable form of the spec invariant for the Smoother
(`runningSum == sum(window)` and `len(window) ≤ N` for every key). -/
def smaInvB (periodPoints : Nat) (st : SmaState) : Bool :=
  st.all fun e => (e.2.sum == e.2.window.sum) && (e.2.window.length ≤ periodPoints)

/-- Decidable form of the strengthened (inductive) Smoother invariant:
`runningSum == sum(window)` and `len(window) ≤ N - 1` for every key. -/
def smaInvStrongB (periodPoints : Nat) (st : SmaState) : Bool :=
  st.all fun e => (e.2.sum == e.2.window.sum) && (e.2.window.length + 1 ≤ periodPoints)

/-! ## The dmon stdout line pattern

`STAT_GRAB_PATTERN = /(\d+)\s+(\d+)\s+\d+\s+\d+\s+\d+\s+(\d+)\s+(\d+)/g` is
applied once per stdout line by `_processGpuCoreInfo`, with `lastIndex` reset
to 0 after every successful match (and automatically on failure), so every
call searches the whole line for the leftmost match.  The character classes
`\d` and `\s` are disjoint, so the greedy matching below is exactly the
backtracking regex semantics for this pattern. -/

def isDigitCh (c : Char) : Bool := '0' ≤ c && c ≤ '9'

def isSpaceCh (c : Char) : Bool :=
  c = ' ' || c = '\t' || c = '\n' || c = '\r' || c = '\x0b' || c = '\x0c'

/-- Numeric value of a digit string, as computed by `Number.parseInt(_, 10)`. -/
def digitsToNat (ds : List Char) : Nat :=
  ds.foldl (fun a c => a * 10 + (c.toNat - 48)) 0

/-- Consume `\d+` (one or more digits, greedily). -/
def takeDigits (cs : List Char) : Option (Nat × List Char) :=
  let ds := cs.takeWhile isDigitCh
  if ds.isEmpty then none else some (digitsToNat ds, cs.dropWhile isDigitCh)

/-- Consume `\s+` (one or more whitespace characters, greedily). -/
def takeSpaces (cs : List Char) : Option (List Char) :=
  let sp := cs.takeWhile isSpaceCh
  if sp.isEmpty then none else some (cs.dropWhile isSpaceCh)

/-- Try to match `STAT_GRAB_PATTERN` starting at the head of `cs`, returning
the four captured groups (core number, used memory, encoder percent, decoder
percent); the 3rd, 4th and 5th numeric columns are not captured. -/
def matchStatAt (cs : List Char) : Option (Nat × Nat × Nat × Nat) := do
  let (d1, cs) ← takeDigits cs
  let cs ← takeSpaces cs
  let (d2, cs) ← takeDigits cs
  let cs ← takeSpaces cs
  let (_, cs) ← takeDigits cs
  let cs ← takeSpaces cs
  let (_, cs) ← takeDigits cs
  let cs ← takeSpaces cs
  let (_, cs) ← takeDigits cs
  let cs ← takeSpaces cs
  let (d6, cs) ← takeDigits cs
  let cs ← takeSpaces cs
  let (d7, _) ← takeDigits cs
  pure (d1, d2, d6, d7)

/-- Leftmost match of the pattern anywhere in the character list. -/
def findStatMatch : List Char → Option (Nat × Nat × Nat × Nat)
  | [] => none
  | c :: rest =>
    match matchStatAt (c :: rest) with
    | some r => some r
    | none => findStatMatch rest

/-- Applying `STAT_GRAB_PATTERN.exec(coreInfo)` to one stdout line: `some (coreNumber,
usedMem, encoderUtilization, decoderUtilization)` on a match, `none` when the
line (e.g. a dmon header row) does not contain a telemetry record. -/
def parseStatLine (line : String) : Option (Nat × Nat × Nat × Nat) :=
  findStatMatch line.data

/-! ## JS numbers in the memory-sample path

`getTotalMemory` returns `this._totalMemory[coreNumber]`, which is
`undefined` for a device index absent from the parsed metadata; the source
then stores that value as `total` and stores `totalMem - usedMem` (which is
`NaN` when `totalMem` is `undefined`) as `free`.  Numeric comparisons against
`undefined`/`NaN` are false in JS. -/

inductive JsNum where
  | int (n : Int)
  | nan
  | undefVal
deriving Repr, DecidableEq

/-- The value `this._totalMemory[coreNumber]` as a JS number. -/
def JsNum.ofOption : Option Int → JsNum
  | some n => .int n
  | none => .undefVal

/-- JS subtraction `a - b` for `b` a genuine number: `undefined`/`NaN`
operands yield `NaN`. -/
def jsSub : JsNum → Int → JsNum
  | .int a, b => .int (a - b)
  | _, _ => .nan

/-- JS comparison `a < m` for `m` a genuine number: false when `a` is
`undefined` or `NaN`. -/
def jsLtInt : JsNum → Int → Bool
  | .int n, m => decide (n < m)
  | _, _ => false

/-- One entry of `this._gpuCoresMem`. -/
structure MemSample where
  total : JsNum
  free : JsNum
deriving Repr, DecidableEq

/-! ## Overload policies -/

/-- Source `_isMemOverloadedByIncorrectData(free, total)`: `free < 0 || total < 0`. -/
def isMemOverloadedByIncorrectData (s : MemSample) : Bool :=
  jsLtInt s.free 0 || jsLtInt s.total 0

/-- The comparison `((total - free) / total) > highWatermark` of
`_isMemOverloadedByRateThreshold`, on JS numbers: `NaN`/`undefined` operands
make it false; a zero total gives `+Infinity` (true) exactly when
`total - free` is positive, i.e. `free < 0`; otherwise the JS float division
is modelled by exact rational division. -/
def jsRateGt (highWatermark : ℚ) (s : MemSample) : Bool :=
  match s.total, s.free with
  | .int t, .int f =>
    if t = 0 then decide (f < 0)
    else decide (((t : ℚ) - (f : ℚ)) / (t : ℚ) > highWatermark)
  | _, _ => false

/-- Source `_isMemOverloadedByRateThreshold(highWatermark, coresMemCollection)`. -/
def isMemOverloadedByRateThreshold (highWatermark : ℚ)
    (coll : List (Nat × MemSample)) : Bool :=
  coll.any fun e => isMemOverloadedByIncorrectData e.2 || jsRateGt highWatermark e.2

/-- Source `_isMemOverloadedByFixedThreshold(minFree, coresMemCollection)`. -/
def isMemOverloadedByFixedThreshold (minFree : Int)
    (coll : List (Nat × MemSample)) : Bool :=
  coll.any fun e => isMemOverloadedByIncorrectData e.2 || jsLtInt e.2.free minFree

/-- Source `_isGpuUsageOverloadByRateThreshold(highWatermark, coresUsageCollection)`. -/
def isGpuUsageOverloadByRateThreshold (highWatermark : ℚ)
    (coll : List (Nat × Int)) : Bool :=
  coll.any fun e => decide (highWatermark * 100 < (e.2 : ℚ))

/-- The memory check selected by `_initMemChecks` from `mem.thresholdType`.
For `thresholdType = none` the source binds `_isMemOverloadedByIncorrectData`
itself, so the collection is received as the `free` parameter and `total` is
`undefined`; both JS comparisons on those non-numbers are false and the check
always returns false. -/
inductive MemPolicy where
  | fixed (minFree : Int)
  | rate (highWatermark : ℚ)
  | noCheck

/-- The utilization threshold check selected by `_initCoreUtilizationChecks`
from `thresholdType` (`rate` or `none`). -/
inductive UtilThreshold where
  | rate (highWatermark : ℚ)
  | noCheck

def evalMemPolicy : MemPolicy → List (Nat × MemSample) → Bool
  | .fixed minFree, coll => isMemOverloadedByFixedThreshold minFree coll
  | .rate hw, coll => isMemOverloadedByRateThreshold hw coll
  | .noCheck, _ => false

def evalUtilThreshold : UtilThreshold → List (Nat × Int) → Bool
  | .rate hw, coll => isGpuUsageOverloadByRateThreshold hw coll
  | .noCheck, _ => false

/-- The construction-time configuration of an `NvidiaGpuMonitor`, for the
`calculationAlgo = sma` usage calculators (the `last_value` calculator class
`GpuUtilization` is not part of the source tree; no claim concerns it). -/
structure MonitorConfig where
  checkIntervalSec : Nat
  memPolicy : MemPolicy
  encPeriodPoints : Nat
  decPeriodPoints : Nat
  encThreshold : UtilThreshold
  decThreshold : UtilThreshold

/-! ## The metadata resolver (src/NvidiaGpuInfo.js)

The external `nvidia-smi -q` invocation is abstracted as its outcome: either
the thrown error of `_readCoresMetaData`, or the list of successful
`DATA_GRAB_PATTERN` matches (product name, minor number, total memory MiB)
together with the `DRIVER_VERSION_GRAB_PATTERN` capture. -/

/-- One `DATA_GRAB_PATTERN` match: captured product name, minor number and
total FB memory. -/
abbrev MetaMatches := List (String × Nat × Nat)

/-- Outcome of `_readCoresMetaData()`: an error, or the pattern matches of
its stdout plus the optional driver-version capture. -/
abbrev MetaFetch := Except Unit (MetaMatches × Option String)

/-- Instance state of `NvidiaGpuInfo`. -/
structure GpuInfoState where
  driverVersion : Option String
  coreNumbers : List Nat
  productNames : List (Nat × String)
  totalMemory : List (Nat × Int)
  commandRunned : Bool
deriving Repr, DecidableEq

/-- The freshly constructed `NvidiaGpuInfo` instance. -/
def mkGpuInfoState : GpuInfoState :=
  { driverVersion := none, coreNumbers := [], productNames := [],
    totalMemory := [], commandRunned := false }

/-- The `while ((matchResult = DATA_GRAB_PATTERN.exec(...)) !== null)` loop of
`parseGpuMetaData`: for each match add the minor number to `_coreNumbers` and
record the product name and total memory under it. -/
def applyMetaMatches : GpuInfoState → MetaMatches → GpuInfoState
  | g, [] => g
  | g, (name, coreNumber, mem) :: rest =>
    applyMetaMatches
      { g with coreNumbers := setAdd g.coreNumbers coreNumber,
               productNames := aset g.productNames coreNumber name,
               totalMemory := aset g.totalMemory coreNumber (mem : Int) } rest

/-- Result of one `parseGpuMetaData()` call: the new instance state, whether
the external command was invoked, and whether the call rethrew the read
error. -/
structure MetaRunResult where
  state : GpuInfoState
  invoked : Bool
  threw : Bool
deriving Repr, DecidableEq

/-- Source `NvidiaGpuInfo.parseGpuMetaData` (src/NvidiaGpuInfo.js lines
54-78): return immediately when `_commandRunned` is set (a resolution already
in flight); otherwise set the guard, read the metadata, clear the guard, and
on success apply every pattern match and set `_driverVersion` from the
driver-version match (or `undefined` when it is absent); on a read error
clear the guard and rethrow. -/
def parseGpuMetaData (g : GpuInfoState) (fetch : MetaFetch) : MetaRunResult :=
  if g.commandRunned then ⟨g, false, false⟩
  else
    match fetch with
    | .error _ => ⟨{ g with commandRunned := false }, true, true⟩
    | .ok (ms, dv) =>
      let g1 := applyMetaMatches { g with commandRunned := false } ms
      ⟨{ g1 with driverVersion := dv }, true, false⟩

/-! ## The monitor (index.js)

State of an `NvidiaGpuMonitor` instance.  `timerSeq` is the supply of fresh
timer identities (each `setTimeout` in the source returns a new distinct
`Timeout` object); `sweepCount` counts the `_processCoresStatistic`
invocations and `metadataResolveCalls` the `parseGpuMetaData` invocations the
monitor makes, so that the frame claims about them are expressible.  The
removal of stream listeners and destruction of the stdio handles in the exit
handler have no further observable effect in the model. -/

inductive Status where
  | stopped
  | started
  | stopping
deriving Repr, DecidableEq

/-- A live JS timer: its identity and the delay it was armed with. -/
structure Timer where
  id : Nat
  delayMsec : Nat
deriving Repr, DecidableEq

inductive MonEvent where
  | healthy
  | unhealthy
  | stopped
  | errored (msg : String)
deriving Repr, DecidableEq

structure MonitorState where
  status : Status
  healthy : Bool
  healthyTimer : Option Timer
  restartTimer : Option Timer
  timerSeq : Nat
  gpuInfo : GpuInfoState
  coreNumbers : List Nat
  tmpCoreNumbers : List Nat
  gpuCoresMem : List (Nat × MemSample)
  gpuEncodersUsage : List (Nat × Int)
  gpuDecodersUsage : List (Nat × Int)
  gpuEncodersUtilization : List (Nat × Int)
  gpuDecodersUtilization : List (Nat × Int)
  encCalc : SmaState
  decCalc : SmaState
  isOverloaded : Bool
  sweepCount : Nat
  metadataResolveCalls : Nat
deriving Repr, DecidableEq

/-- The freshly constructed monitor (`constructor`, index.js lines 468-512):
status stopped, no timers, unhealthy, empty device sets and sample maps, and
`_isOverloaded = true`. -/
def mkMonitorState : MonitorState :=
  { status := .stopped, healthy := false, healthyTimer := none,
    restartTimer := none, timerSeq := 0, gpuInfo := mkGpuInfoState,
    coreNumbers := [], tmpCoreNumbers := [], gpuCoresMem := [],
    gpuEncodersUsage := [], gpuDecodersUsage := [],
    gpuEncodersUtilization := [], gpuDecodersUtilization := [],
    encCalc := [], decCalc := [], isOverloaded := true,
    sweepCount := 0, metadataResolveCalls := 0 }

/-- Source `_processCoresStatistic` (index.js lines 730-738): run the two
usage calculators on the accumulated raw utilization, clear the raw maps,
and recompute `_isOverloaded` as the OR of the three policy checks (memory on
`_gpuCoresMem`, encoder and decoder on the freshly smoothed usage maps). -/
def processCoresStatistic (cfg : MonitorConfig) (st : MonitorState) :
    MonitorState :=
  let encR := getUsage cfg.encPeriodPoints st.encCalc st.gpuEncodersUtilization
  let decR := getUsage cfg.decPeriodPoints st.decCalc st.gpuDecodersUtilization
  { st with
    gpuEncodersUsage := encR.1, encCalc := encR.2,
    gpuDecodersUsage := decR.1, decCalc := decR.2,
    gpuEncodersUtilization := [], gpuDecodersUtilization := [],
    isOverloaded := evalMemPolicy cfg.memPolicy st.gpuCoresMem
      || evalUtilThreshold cfg.encThreshold encR.1
      || evalUtilThreshold cfg.decThreshold decR.1,
    sweepCount := st.sweepCount + 1 }

/-- The sweep-commit block that appears twice in `_processGpuCoreInfo`:
install the per-cycle accumulator as the current device set, clear the
accumulator, and run `_processCoresStatistic`. -/
def commitSweep (cfg : MonitorConfig) (st : MonitorState) : MonitorState :=
  processCoresStatistic cfg
    { st with coreNumbers := st.tmpCoreNumbers, tmpCoreNumbers := [] }

/-- Body of the `if (matchResult !== null)` branch of `_processGpuCoreInfo`
(index.js lines 690-722): store the memory sample computed from the metadata
total-memory lookup, commit a sweep if the core already reported in this
cycle, record the raw utilization and add the core to the cycle accumulator,
commit a sweep if every metadata-known core has now reported, and emit
`healthy` on the unhealthy-to-healthy edge. -/
def processMatchedSample (cfg : MonitorConfig) (st : MonitorState)
    (coreNumber usedMem encUtil decUtil : Nat) :
    MonitorState × List MonEvent :=
  let totalMem := JsNum.ofOption (alookup st.gpuInfo.totalMemory coreNumber)
  let sample : MemSample := ⟨totalMem, jsSub totalMem (usedMem : Int)⟩
  let st := { st with gpuCoresMem := aset st.gpuCoresMem coreNumber sample }
  let st := if st.tmpCoreNumbers.contains coreNumber then commitSweep cfg st else st
  let st := { st with
    gpuEncodersUtilization := aset st.gpuEncodersUtilization coreNumber (encUtil : Int),
    gpuDecodersUtilization := aset st.gpuDecodersUtilization coreNumber (decUtil : Int),
    tmpCoreNumbers := setAdd st.tmpCoreNumbers coreNumber }
  let st := if st.tmpCoreNumbers.length = st.gpuInfo.coreNumbers.length then
      commitSweep cfg st
    else st
  if st.healthy then (st, [])
  else ({ st with healthy := true }, [MonEvent.healthy])

/-- Source `_processGpuCoreInfo` (index.js lines 683-728): cancel the pending
watchdog timer, process the line if it matches the telemetry pattern, and
arm a fresh watchdog timer with delay `checkIntervalSec * 2 * 1000` msec. -/
def processGpuCoreInfo (cfg : MonitorConfig) (st : MonitorState)
    (coreInfo : String) : MonitorState × List MonEvent :=
  let st1 := { st with healthyTimer := none }
  let r :=
    match parseStatLine coreInfo with
    | none => (st1, ([] : List MonEvent))
    | some (coreNumber, usedMem, encUtil, decUtil) =>
      processMatchedSample cfg st1 coreNumber usedMem encUtil decUtil
  ({ r.1 with
      healthyTimer := some ⟨r.1.timerSeq, cfg.checkIntervalSec * 2 * 1000⟩,
      timerSeq := r.1.timerSeq + 1 }, r.2)

/-- Fold `_processGpuCoreInfo` over a list of stdout lines, discarding the
emitted events. -/
def processLines (cfg : MonitorConfig) : MonitorState → List String → MonitorState
  | st, [] => st
  | st, l :: ls => processLines cfg (processGpuCoreInfo cfg st l).1 ls

/-- Value of `DEFAULT_RESTART_TIMEOUT_MSEC`. -/
def defaultRestartTimeoutMsec : Nat := 1000

/-- The message of the error emitted by `_watcherExitHandler`. -/
def exitMessage (code : Option Int) (signal : String) : String :=
  "\"nvidia-smi dmon\" finished with " ++
    (match code with
     | some c => "code " ++ toString c
     | none => "signal " ++ signal)

/-- Source `_watcherExitHandler(code, signal)` (index.js lines 660-678): mark
unhealthy; if status is not Stopping, schedule a restart after the fixed
1000 msec backoff and emit an error describing the exit code or signal plus
`unhealthy`; otherwise set status Stopped and emit `stopped`. -/
def watcherExitHandler (st : MonitorState) (code : Option Int)
    (signal : String) : MonitorState × List MonEvent :=
  let st := { st with healthy := false }
  if st.status ≠ Status.stopping then
    ({ st with restartTimer := some ⟨st.timerSeq, defaultRestartTimeoutMsec⟩,
               timerSeq := st.timerSeq + 1 },
     [MonEvent.errored (exitMessage code signal), MonEvent.unhealthy])
  else
    ({ st with status := Status.stopped }, [MonEvent.stopped])

/-- Source `_watcherErrorHandler(err)` (index.js lines 649-654). -/
def watcherErrorHandler (st : MonitorState) (msg : String) :
    MonitorState × List MonEvent :=
  ({ st with healthy := false }, [MonEvent.errored msg, MonEvent.unhealthy])

/-- Source `stop()` (index.js lines 531-552): return immediately when already
stopped; otherwise cancel any pending watchdog timer and mark unhealthy, then
either cancel a pending restart timer, set status Stopped and emit `stopped`
(no process exists to signal), or set status Stopping and kill the child
process (the third component records whether `kill()` was issued). -/
def stop (st : MonitorState) : MonitorState × List MonEvent × Bool :=
  if st.status = Status.stopped then (st, [], false)
  else
    let st := { st with healthyTimer := none, healthy := false }
    match st.restartTimer with
    | some _ =>
      ({ st with restartTimer := none, status := Status.stopped },
       [MonEvent.stopped], false)
    | none => ({ st with status := Status.stopping }, [], true)

/-- Source `start()` (index.js lines 517-529): fail unless stopped, run
`parseGpuMetaData` (rethrowing its failure), spawn the dmon watcher, mark
healthy and started, and return the metadata core numbers. -/
def start (st : MonitorState) (fetch : MetaFetch) :
    Except String (MonitorState × List Nat) :=
  if st.status ≠ Status.stopped then
    .error "NvidiaGpuMonitor service is already started"
  else
    let r := parseGpuMetaData st.gpuInfo fetch
    if r.threw then .error "parseGpuMetaData failed"
    else
      .ok ({ st with gpuInfo := r.state, healthy := true,
                     status := Status.started,
                     metadataResolveCalls := st.metadataResolveCalls + 1 },
           r.state.coreNumbers)

/-- Source `isOverloaded()` (index.js lines 596-602): throw when stopped,
else return `_isOverloaded`. -/
def isOverloadedQuery (st : MonitorState) : Except String Bool :=
  if st.status = Status.stopped then
    .error "NvidiaGpuMonitor service is not started"
  else .ok st.isOverloaded

/-! ## Concrete fixtures for witnesses and counterexamples -/

/-- A configuration without threshold checks (used where the policy content
is irrelevant). -/
def cfgPlain : MonitorConfig :=
  { checkIntervalSec := 1, memPolicy := .noCheck, encPeriodPoints := 3,
    decPeriodPoints := 3, encThreshold := .noCheck, decThreshold := .noCheck }

/-- A configuration with rate policies on all three dimensions. -/
def cfgRate : MonitorConfig :=
  { checkIntervalSec := 1, memPolicy := .rate (3 / 4), encPeriodPoints := 2,
    decPeriodPoints := 2, encThreshold := .rate (3 / 4),
    decThreshold := .rate (3 / 4) }

/-- A started monitor with a pending watchdog timer and no state of interest. -/
def stWatch : MonitorState :=
  { mkMonitorState with
      status := .started, healthy := true,
      healthyTimer := some ⟨0, 2000⟩, timerSeq := 1 }

/-- A started monitor whose metadata knows no devices (empty total-memory
map), about to process a record for device 5. -/
def stNoMeta : MonitorState :=
  { mkMonitorState with status := .started, healthy := true, timerSeq := 1 }

/-- A started monitor whose metadata knows devices 0 and 1, with device 0
already in the per-cycle accumulator. -/
def stTwoKnown : MonitorState :=
  { mkMonitorState with
      status := .started, healthy := true,
      gpuInfo := { mkGpuInfoState with
                     coreNumbers := [0, 1],
                     productNames := [(0, "Tesla M60"), (1, "Tesla M60")],
                     totalMemory := [(0, 8000), (1, 8000)] },
      tmpCoreNumbers := [0],
      gpuEncodersUtilization := [(0, 3)], gpuDecodersUtilization := [(0, 4)] }

/-- A started monitor with one memory sample carrying the sentinel
(`free = -1`). -/
def stMemBad : MonitorState :=
  { mkMonitorState with
      status := .started, healthy := true,
      gpuCoresMem := [(0, ⟨JsNum.int 10, JsNum.int (-1)⟩)] }

/-- A monitor in the transient Stopping state. -/
def stStopping : MonitorState :=
  { mkMonitorState with status := .stopping }

/-- A started monitor whose child has exited and whose restart timer is
pending. -/
def stRestartPending : MonitorState :=
  { mkMonitorState with
      status := .started, restartTimer := some ⟨7, 1000⟩, timerSeq := 8 }

/-- A metadata-resolution outcome with two devices. -/
def fetchTwo : MetaFetch :=
  Except.ok ([("Tesla M60", 0, 8000), ("Tesla M60", 1, 8000)], some "384.111")

/-- A resolver state with a resolution in flight. -/
def gInFlight : GpuInfoState :=
  { driverVersion := some "384.111", coreNumbers := [0],
    productNames := [(0, "Tesla M60")], totalMemory := [(0, 8000)],
    commandRunned := true }

/-- A stdout header line that does not match the telemetry pattern. -/
def headerLine : String := "# gpu    fb  bar1    sm   mem   enc   dec"

/-- A stdout telemetry line for device 0: used 146 MiB, encoder 2, decoder 1. -/
def statLine0 : String := "    0   146     5     0     0     2     1"

/-- A stdout telemetry line for device 1. -/
def statLine1 : String := "    1     0     5     0     0     0     0"

/-- A stdout telemetry line for device 5 (absent from `stNoMeta` metadata). -/
def statLine5 : String := "    5   100     0     0     0     7     9"

/-! ## Helper lemmas -/

lemma alookup_aset_self {α : Type} (l : List (Nat × α)) (k : Nat) (v : α) :
    alookup (aset l k v) k = some v := by
  induction l with
  | nil => simp [aset, alookup]
  | cons hd tl ih =>
    obtain ⟨k1, v1⟩ := hd
    by_cases h : k1 = k
    · simp [aset, alookup, h]
    · simp [aset, alookup, h, ih]

lemma entryOf_aset_self (st : SmaState) (c : Nat) (e : SmaEntry) :
    entryOf (aset st c e) c = e := by
  simp [entryOf, alookup_aset_self]

lemma sum_sub_headD (l : List Int) : l.sum - l.headD 0 = (l.drop 1).sum := by
  cases l with
  | nil => simp
  | cons h t => simp

/-- Reading the per-key step through `entryOf`: a missing key behaves exactly
like the empty entry. -/
lemma smaKeyStep_eq (n : Nat) (st : SmaState) (c : Nat) (v : Int) :
    smaKeyStep n st c v =
      if (entryOf st c).window.length + 1 = n then
        (Int.fdiv ((entryOf st c).sum + v) n,
         aset st c ⟨((entryOf st c).window ++ [v]).drop 1,
                    (entryOf st c).sum + v - ((entryOf st c).window ++ [v]).headD 0⟩)
      else (100, aset st c ⟨(entryOf st c).window ++ [v], (entryOf st c).sum + v⟩) := by
  unfold smaKeyStep entryOf
  cases h : alookup st c <;> simp [h]

lemma smaRun_cons (n : Nat) (st : SmaState) (c : Nat) (v : Int) (vs : List Int) :
    smaRun n st c (v :: vs)
      = (smaKeyStep n st c v).1 :: smaRun n (smaKeyStep n st c v).2 c vs := by
  simp [smaRun, getUsage, alookup]

/-- Realignment of the positionwise description when the consumed prefix
grows by one value. -/
lemma smaSpecArg_shift (n : Nat) (pre : List Int) (v : Int) (vs : List Int)
    (j : Nat) :
    (if (pre ++ [v]).length + j + 1 < n then (100 : Int)
     else Int.fdiv
       (((pre ++ [v]) ++ vs.take (j + 1)).drop ((pre ++ [v]).length + j + 1 - n)).sum n)
      = (if pre.length + (j + 1) + 1 < n then (100 : Int)
         else Int.fdiv
           ((pre ++ (v :: vs).take (j + 1 + 1)).drop (pre.length + (j + 1) + 1 - n)).sum n) := by
  have hlen : (pre ++ [v]).length = pre.length + 1 := by simp
  have hlist : pre ++ (v :: vs).take (j + 1 + 1) = (pre ++ [v]) ++ vs.take (j + 1) := by
    rw [List.take_succ_cons]
    simp
  have harith : (pre ++ [v]).length + j + 1 = pre.length + (j + 1) + 1 := by
    rw [hlen]; omega
  rw [hlist, harith]

/-- Outputs of an observation run, characterized positionwise: with the
window/sum for the key holding exactly the most recent raw values `pre`
observed so far, the i-th further observation reports 100 while fewer than
`n` values have arrived in total and the floored average of the last `n`
otherwise. -/
lemma smaRun_spec (n : Nat) (hn : 1 ≤ n) (c : Nat) :
    ∀ (vs pre : List Int) (st : SmaState),
      entryOf st c = ⟨winOf n pre, (winOf n pre).sum⟩ →
      ∀ i, i < vs.length →
        (smaRun n st c vs)[i]? =
          some (if pre.length + i + 1 < n then (100 : Int)
                else Int.fdiv ((pre ++ vs.take (i + 1)).drop (pre.length + i + 1 - n)).sum n)
  | [], _, _, _, i, hi => by simp at hi
  | v :: vs, pre, st, hst, i, hi => by
    have hL : (winOf n pre).length = pre.length - (pre.length + 1 - n) := by
      simp [winOf]
    have happ : winOf n pre ++ [v] = (pre ++ [v]).drop (pre.length + 1 - n) := by
      rw [winOf, List.drop_append_of_le_length (by omega)]
    rw [smaRun_cons, smaKeyStep_eq, hst]
    by_cases hcond : (winOf n pre).length + 1 = n
    · -- the window is full after this push: n ≤ pre.length + 1
      have hge : n ≤ pre.length + 1 := by omega
      rw [if_pos (by simpa using hcond)]
      cases i with
      | zero =>
        rw [List.getElem?_cons_zero, if_neg (by omega)]
        have hsum : ((winOf n pre : List Int) ++ [v]).sum = (winOf n pre).sum + v := by
          simp
        rw [List.take_succ_cons, List.take_zero, show pre.length + 0 + 1 - n
              = pre.length + 1 - n by omega, ← happ, hsum]
      | succ j =>
        rw [List.getElem?_cons_succ]
        have h1 : ((winOf n pre : List Int) ++ [v]).drop 1 = winOf n (pre ++ [v]) := by
          rw [happ, List.drop_drop, winOf]
          have : (pre ++ [v]).length + 1 - n = pre.length + 1 - n + 1 := by
            simp; omega
          rw [this]
        have hsum : ((winOf n pre : List Int) ++ [v]).sum = (winOf n pre).sum + v := by
          simp
        have h2 : (winOf n pre).sum + v - ((winOf n pre : List Int) ++ [v]).headD 0
            = (winOf n (pre ++ [v])).sum := by
          rw [← hsum, sum_sub_headD, h1]
        have hst2 : entryOf (aset st c
            ⟨((winOf n pre : List Int) ++ [v]).drop 1,
              (winOf n pre).sum + v - ((winOf n pre : List Int) ++ [v]).headD 0⟩) c
            = ⟨winOf n (pre ++ [v]), (winOf n (pre ++ [v])).sum⟩ := by
          rw [entryOf_aset_self, h1, h2]
        have ih := smaRun_spec n hn c vs (pre ++ [v]) _ hst2 j (by simpa using hi)
        rw [ih]
        exact congrArg some (smaSpecArg_shift n pre v vs j)
    · -- the window is not yet full: pre.length + 1 < n
      have hlt : pre.length + 1 < n := by omega
      rw [if_neg (by simpa using hcond)]
      have hpre : winOf n pre = pre := by
        rw [winOf, show pre.length + 1 - n = 0 by omega, List.drop_zero]
      cases i with
      | zero =>
        rw [List.getElem?_cons_zero, if_pos (by omega)]
      | succ j =>
        rw [List.getElem?_cons_succ]
        have h1 : (winOf n pre : List Int) ++ [v] = winOf n (pre ++ [v]) := by
          rw [hpre, winOf, show (pre ++ [v]).length + 1 - n = 0 by simp; omega,
            List.drop_zero]
        have h2 : (winOf n pre).sum + v = (winOf n (pre ++ [v])).sum := by
          rw [← h1, hpre]
          simp
        have hst2 : entryOf (aset st c
            ⟨(winOf n pre : List Int) ++ [v], (winOf n pre).sum + v⟩) c
            = ⟨winOf n (pre ++ [v]), (winOf n (pre ++ [v])).sum⟩ := by
          rw [entryOf_aset_self, h1, h2]
        have ih := smaRun_spec n hn c vs (pre ++ [v]) _ hst2 j (by simpa using hi)
        rw [ih]
        exact congrArg some (smaSpecArg_shift n pre v vs j)

lemma all_aset_val {α : Type} {q : α → Bool} (l : List (Nat × α)) (k : Nat) (v : α)
    (hl : l.all (fun e => q e.2) = true) (hv : q v = true) :
    (aset l k v).all (fun e => q e.2) = true := by
  induction l with
  | nil => simp [aset, hv]
  | cons hd tl ih =>
    obtain ⟨k1, v1⟩ := hd
    simp only [List.all_cons, Bool.and_eq_true] at hl
    by_cases h : k1 = k
    · simp [aset, h, hv, hl.2]
    · simp only [aset, h, if_false, List.all_cons, Bool.and_eq_true]
      exact ⟨hl.1, ih hl.2⟩

lemma all_entryOf {q : SmaEntry → Bool} (st : SmaState)
    (hl : st.all (fun e => q e.2) = true) (hdef : q ⟨[], 0⟩ = true) (c : Nat) :
    q (entryOf st c) = true := by
  induction st with
  | nil => simpa [entryOf, alookup]
  | cons hd tl ih =>
    obtain ⟨k1, v1⟩ := hd
    simp only [List.all_cons, Bool.and_eq_true] at hl
    by_cases h : k1 = c
    · simpa [entryOf, alookup, h] using hl.1
    · simpa [entryOf, alookup, h] using ih hl.2

/-- The strengthened invariant is preserved by one loop iteration of
`getUsage`. -/
lemma smaKeyStep_inv (n : Nat) (hn : 1 ≤ n) (st : SmaState) (c : Nat) (v : Int)
    (h : smaInvStrongB n st = true) :
    smaInvStrongB n (smaKeyStep n st c v).2 = true := by
  have hq : (fun a : SmaEntry =>
      (a.sum == a.window.sum) && decide (a.window.length + 1 ≤ n)) (entryOf st c)
      = true := by
    apply all_entryOf (q := fun a : SmaEntry =>
      (a.sum == a.window.sum) && decide (a.window.length + 1 ≤ n)) st h
    simpa using hn
  simp only [Bool.and_eq_true, beq_iff_eq, decide_eq_true_eq] at hq
  obtain ⟨hsum, hlen⟩ := hq
  have hwsum : (entryOf st c).sum + v = ((entryOf st c).window ++ [v]).sum := by
    rw [hsum]; simp
  rw [smaKeyStep_eq]
  by_cases hcond : (entryOf st c).window.length + 1 = n
  · rw [if_pos hcond]
    exact all_aset_val (q := fun a : SmaEntry =>
      (a.sum == a.window.sum) && decide (a.window.length + 1 ≤ n)) st c _ h
      (by
        simp only [Bool.and_eq_true, beq_iff_eq, decide_eq_true_eq]
        constructor
        · rw [hwsum, sum_sub_headD]
        · simp only [List.length_drop, List.length_append, List.length_singleton]
          omega)
  · rw [if_neg hcond]
    exact all_aset_val (q := fun a : SmaEntry =>
      (a.sum == a.window.sum) && decide (a.window.length + 1 ≤ n)) st c _ h
      (by
        simp only [Bool.and_eq_true, beq_iff_eq, decide_eq_true_eq]
        constructor
        · rw [hwsum]
        · simp only [List.length_append, List.length_singleton]
          omega)

/-- The strengthened invariant is preserved by a whole `getUsage` call. -/
lemma getUsage_inv (n : Nat) (hn : 1 ≤ n) :
    ∀ (input : List (Nat × Int)) (st : SmaState), smaInvStrongB n st = true →
      smaInvStrongB n (getUsage n st input).2 = true
  | [], _, h => h
  | (c, v) :: rest, st, h => by
    have := getUsage_inv n hn rest (smaKeyStep n st c v).2 (smaKeyStep_inv n hn st c v h)
    simpa [getUsage] using this

/-- C4: for every configured period N > 1 and a key freshly observed by the
Smoother, `getUsage` reports the sentinel 100 for each of the first N-1
observations of that key and `floor((sum of the last N raw values) / N)` from
the N-th observation onward. -/
theorem c4_sma_warmup_and_average (n : Nat) (hn : 1 < n) (st : SmaState)
    (c : Nat) (h0 : alookup st c = none) (vs : List Int) (i : Nat)
    (hi : i < vs.length) :
    (smaRun n st c vs)[i]? =
      some (if i + 1 < n then (100 : Int)
            else Int.fdiv ((vs.take (i + 1)).drop (i + 1 - n)).sum n) := by
  have hst : entryOf st c = ⟨winOf n [], (winOf n [] : List Int).sum⟩ := by
    simp [entryOf, h0, winOf]
  have h := smaRun_spec n (by omega) c vs [] st hst i hi
  simpa using h

/-- Witness for C4: with N = 3 and raw series [10, 10, 70, 70], the
observations report 100, 100, 30 and — on the 4th —
`floor((10 + 70 + 70) / 3) = 50`. -/
theorem c4_witness :
    (smaRun 3 [] 0 [10, 10, 70, 70])[1]? = some 100
      ∧ (smaRun 3 [] 0 [10, 10, 70, 70])[3]? = some 50 := by
  constructor
  · have h := c4_sma_warmup_and_average 3 (by decide) [] 0 rfl [10, 10, 70, 70] 1
      (by decide)
    exact h.trans (by decide)
  · have h := c4_sma_warmup_and_average 3 (by decide) [] 0 rfl [10, 10, 70, 70] 3
      (by decide)
    exact h.trans (by decide)

/-- Counterexample for C8: the invariant as claimed (`runningSum ==
sum(window)` and `len(window) ≤ N`) is not preserved by `getUsage`: from the
state with window [5, 5] and sum 10 at N = 2, which satisfies it, one more
observation pushes the window to length 3 without eviction (the eviction
check is an exact `=== N` comparison), violating `len(window) ≤ N`. -/
theorem c8_cex :
    smaInvB 2 [(0, ⟨[5, 5], 10⟩)] = true
      ∧ smaInvB 2 (getUsage 2 [(0, ⟨[5, 5], 10⟩)] [(0, 7)]).2 = false := by
  exact ⟨by decide, by decide⟩

/-- C8 (amended): every `getUsage` call preserves, for every device/metric
key, the invariants `runningSum == sum(window)` and `len(window) ≤ N - 1`
(the length bound must be strict for the invariant to be inductive; the
claimed bound `≤ N` fails from the boundary state `len(window) = N`). -/
theorem c8_amended_inv (n : Nat) (hn : 1 ≤ n) (st : SmaState)
    (input : List (Nat × Int)) (h : smaInvStrongB n st = true) :
    smaInvStrongB n (getUsage n st input).2 = true :=
  getUsage_inv n hn input st h

/-- Witness for the amended C8 at N = 2, window [5], sum 5, observing 7. -/
theorem c8_witness :
    smaInvStrongB 2 [(0, ⟨[5], 5⟩)] = true
      ∧ smaInvStrongB 2 (getUsage 2 [(0, ⟨[5], 5⟩)] [(0, 7)]).2 = true :=
  ⟨by decide, c8_amended_inv 2 (by decide) _ _ (by decide)⟩

/-- Everything `processMatchedSample` does and does not touch: timers, status,
resolver state and resolver-call count are untouched; the memory sample for
the matched core is stored unconditionally from the metadata lookup; the
sweep count only grows, and when it is unchanged (no commit fired) the
overload flag is untouched and the utilization maps and cycle accumulator
gain exactly this core; the only possible event is the healthy edge. -/
lemma pms_spec (cfg : MonitorConfig) (st : MonitorState) (c u e d : Nat) :
    (processMatchedSample cfg st c u e d).1.timerSeq = st.timerSeq
      ∧ (processMatchedSample cfg st c u e d).1.healthyTimer = st.healthyTimer
      ∧ (processMatchedSample cfg st c u e d).1.restartTimer = st.restartTimer
      ∧ (processMatchedSample cfg st c u e d).1.status = st.status
      ∧ (processMatchedSample cfg st c u e d).1.gpuInfo = st.gpuInfo
      ∧ (processMatchedSample cfg st c u e d).1.metadataResolveCalls
          = st.metadataResolveCalls
      ∧ (processMatchedSample cfg st c u e d).1.gpuCoresMem
          = aset st.gpuCoresMem c
              ⟨JsNum.ofOption (alookup st.gpuInfo.totalMemory c),
               jsSub (JsNum.ofOption (alookup st.gpuInfo.totalMemory c)) (u : Int)⟩
      ∧ st.sweepCount ≤ (processMatchedSample cfg st c u e d).1.sweepCount
      ∧ ((processMatchedSample cfg st c u e d).1.sweepCount = st.sweepCount →
          (processMatchedSample cfg st c u e d).1.isOverloaded = st.isOverloaded
            ∧ (processMatchedSample cfg st c u e d).1.gpuEncodersUtilization
                = aset st.gpuEncodersUtilization c (e : Int)
            ∧ (processMatchedSample cfg st c u e d).1.gpuDecodersUtilization
                = aset st.gpuDecodersUtilization c (d : Int)
            ∧ (processMatchedSample cfg st c u e d).1.tmpCoreNumbers
                = setAdd st.tmpCoreNumbers c)
      ∧ ((processMatchedSample cfg st c u e d).2 = []
          ∨ (processMatchedSample cfg st c u e d).2 = [MonEvent.healthy]) := by
  unfold processMatchedSample
  dsimp only
  split_ifs <;>
    simp_all [commitSweep, processCoresStatistic] <;>
    omega

/-- Behavior of one `_processGpuCoreInfo` call common to every line: a fresh
watchdog timer with delay twice the sampling interval (in msec) is always
armed; restart timer, status, resolver state and resolver-call count are
untouched; the sweep count only grows and, when unchanged, so is the overload
flag; the only possible event is the healthy edge. -/
lemma pgci_spec (cfg : MonitorConfig) (st : MonitorState) (line : String) :
    (processGpuCoreInfo cfg st line).1.healthyTimer
        = some ⟨st.timerSeq, cfg.checkIntervalSec * 2 * 1000⟩
      ∧ (processGpuCoreInfo cfg st line).1.timerSeq = st.timerSeq + 1
      ∧ (processGpuCoreInfo cfg st line).1.restartTimer = st.restartTimer
      ∧ (processGpuCoreInfo cfg st line).1.status = st.status
      ∧ (processGpuCoreInfo cfg st line).1.gpuInfo = st.gpuInfo
      ∧ (processGpuCoreInfo cfg st line).1.metadataResolveCalls
          = st.metadataResolveCalls
      ∧ st.sweepCount ≤ (processGpuCoreInfo cfg st line).1.sweepCount
      ∧ ((processGpuCoreInfo cfg st line).1.sweepCount = st.sweepCount →
          (processGpuCoreInfo cfg st line).1.isOverloaded = st.isOverloaded)
      ∧ ((processGpuCoreInfo cfg st line).2 = []
          ∨ (processGpuCoreInfo cfg st line).2 = [MonEvent.healthy]) := by
  unfold processGpuCoreInfo
  cases hp : parseStatLine line with
  | none => simp
  | some m =>
    obtain ⟨c, u, e, d⟩ := m
    have h := pms_spec cfg { st with healthyTimer := none } c u e d
    dsimp only
    refine ⟨by rw [h.1], by rw [h.1], by rw [h.2.2.1], by rw [h.2.2.2.1],
      by rw [h.2.2.2.2.1], by rw [h.2.2.2.2.2.1], ?_, ?_, ?_⟩
    · exact h.2.2.2.2.2.2.2.1
    · intro hc
      exact (h.2.2.2.2.2.2.2.2.1 hc).1
    · exact h.2.2.2.2.2.2.2.2.2

/-- Folding `_processGpuCoreInfo` over stdout lines preserves the status, can
only grow the sweep count, and leaves the overload flag untouched whenever no
sweep was committed along the way. -/
lemma processLines_spec (cfg : MonitorConfig) :
    ∀ (ls : List String) (st : MonitorState),
      (processLines cfg st ls).status = st.status
        ∧ st.sweepCount ≤ (processLines cfg st ls).sweepCount
        ∧ ((processLines cfg st ls).sweepCount = st.sweepCount →
            (processLines cfg st ls).isOverloaded = st.isOverloaded)
  | [], st => ⟨rfl, Nat.le_refl _, fun _ => rfl⟩
  | l :: ls, st => by
    have hstep := pgci_spec cfg st l
    have hrest := processLines_spec cfg ls (processGpuCoreInfo cfg st l).1
    rw [processLines]
    refine ⟨?_, ?_, ?_⟩
    · rw [hrest.1, hstep.2.2.2.1]
    · exact Nat.le_trans hstep.2.2.2.2.2.2.1 hrest.2.1
    · intro htot
      have hmono1 := hstep.2.2.2.2.2.2.1
      have hmono2 := hrest.2.1
      have hmid : (processGpuCoreInfo cfg st l).1.sweepCount = st.sweepCount := by
        omega
      rw [hrest.2.2 (by omega), hstep.2.2.2.2.2.2.2.1 hmid]

/-- C1 (amended): `_processGpuCoreInfo` cancels the pending watchdog timer
and arms a fresh one with timeout `2 × samplingIntervalSeconds` on EVERY
stdout line it processes, matching or not; a line that does not match the
telemetry pattern changes nothing except that timer (in particular the
healthy flag and all sample state are untouched) and emits no signal. -/
theorem c1_watchdog_rearm_every_line (cfg : MonitorConfig) (st : MonitorState)
    (line : String) :
    (processGpuCoreInfo cfg st line).1.healthyTimer
        = some ⟨st.timerSeq, cfg.checkIntervalSec * 2 * 1000⟩
      ∧ (processGpuCoreInfo cfg st line).1.timerSeq = st.timerSeq + 1
      ∧ (parseStatLine line = none →
          processGpuCoreInfo cfg st line
            = ({ st with
                  healthyTimer := some ⟨st.timerSeq, cfg.checkIntervalSec * 2 * 1000⟩,
                  timerSeq := st.timerSeq + 1 }, [])) := by
  refine ⟨(pgci_spec cfg st line).1, (pgci_spec cfg st line).2.1, ?_⟩
  intro hp
  unfold processGpuCoreInfo
  rw [hp]

/-- Counterexample for C1: processing a stdout line that does not match the
expected record does NOT leave the watchdog timer untouched — the pending
timer (id 0) is replaced by a freshly armed one (id 1). -/
theorem c1_cex :
    parseStatLine headerLine = none
      ∧ stWatch.healthyTimer = some ⟨0, 2000⟩
      ∧ (processGpuCoreInfo cfgPlain stWatch headerLine).1.healthyTimer
          = some ⟨1, 2000⟩
      ∧ (processGpuCoreInfo cfgPlain stWatch headerLine).1.healthyTimer
          ≠ stWatch.healthyTimer := by
  refine ⟨by decide, by decide, by decide, by decide⟩

/-- Witness for the amended C1: a non-matching header line on a concrete
started monitor re-arms the watchdog timer and changes nothing else. -/
theorem c1_witness :
    processGpuCoreInfo cfgPlain stWatch headerLine
      = ({ stWatch with healthyTimer := some ⟨1, 2000⟩, timerSeq := 2 }, []) :=
  (c1_watchdog_rearm_every_line cfgPlain stWatch headerLine).2.2 (by decide)

/-- C2 (amended): for every stdout line matching the telemetry pattern the
parser stores, under the device index, the sample with `total` the metadata
lookup and `free = total - used`; when the device is present in metadata this
is the numeric `free = totalMemoryForDevice(deviceIndex) - used`, but a
device absent from metadata is NOT dropped: its sample is stored with
`total = undefined` and `free = NaN`, and (when no sweep commit fires) the
utilization maps and the sweep accumulator are updated exactly as for a known
device. -/
theorem c2_free_mem_computation (cfg : MonitorConfig) (st : MonitorState)
    (line : String) (core used enc dec : Nat)
    (hp : parseStatLine line = some (core, used, enc, dec)) :
    (processGpuCoreInfo cfg st line).1.gpuCoresMem
        = aset st.gpuCoresMem core
            ⟨JsNum.ofOption (alookup st.gpuInfo.totalMemory core),
             jsSub (JsNum.ofOption (alookup st.gpuInfo.totalMemory core)) (used : Int)⟩
      ∧ (∀ t, alookup st.gpuInfo.totalMemory core = some t →
          alookup (processGpuCoreInfo cfg st line).1.gpuCoresMem core
            = some ⟨JsNum.int t, JsNum.int (t - used)⟩)
      ∧ (alookup st.gpuInfo.totalMemory core = none →
          alookup (processGpuCoreInfo cfg st line).1.gpuCoresMem core
            = some ⟨JsNum.undefVal, JsNum.nan⟩)
      ∧ ((processGpuCoreInfo cfg st line).1.sweepCount = st.sweepCount →
          alookup (processGpuCoreInfo cfg st line).1.gpuEncodersUtilization core
              = some (enc : Int)
            ∧ alookup (processGpuCoreInfo cfg st line).1.gpuDecodersUtilization core
              = some (dec : Int)
            ∧ (processGpuCoreInfo cfg st line).1.tmpCoreNumbers
              = setAdd st.tmpCoreNumbers core) := by
  have hmem : (processGpuCoreInfo cfg st line).1.gpuCoresMem
      = aset st.gpuCoresMem core
          ⟨JsNum.ofOption (alookup st.gpuInfo.totalMemory core),
           jsSub (JsNum.ofOption (alookup st.gpuInfo.totalMemory core)) (used : Int)⟩ := by
    unfold processGpuCoreInfo
    rw [hp]
    exact (pms_spec cfg { st with healthyTimer := none } core used enc dec).2.2.2.2.2.2.1
  refine ⟨hmem, ?_, ?_, ?_⟩
  · intro t ht
    rw [hmem, ht, alookup_aset_self]
    rfl
  · intro ht
    rw [hmem, ht, alookup_aset_self]
    rfl
  · intro hc
    have hrest : (processGpuCoreInfo cfg st line).1.gpuEncodersUtilization
        = aset st.gpuEncodersUtilization core (enc : Int)
          ∧ (processGpuCoreInfo cfg st line).1.gpuDecodersUtilization
        = aset st.gpuDecodersUtilization core (dec : Int)
          ∧ (processGpuCoreInfo cfg st line).1.tmpCoreNumbers
        = setAdd st.tmpCoreNumbers core := by
      have h := pms_spec cfg { st with healthyTimer := none } core used enc dec
      have hc2 : (processMatchedSample cfg { st with healthyTimer := none }
          core used enc dec).1.sweepCount = st.sweepCount := by
        have : (processGpuCoreInfo cfg st line).1.sweepCount
            = (processMatchedSample cfg { st with healthyTimer := none }
                core used enc dec).1.sweepCount := by
          unfold processGpuCoreInfo
          rw [hp]
        omega
      have hr := h.2.2.2.2.2.2.2.2.1 hc2
      refine ⟨?_, ?_, ?_⟩ <;>
        · unfold processGpuCoreInfo
          rw [hp]
          simp [hr.2.1, hr.2.2.1, hr.2.2.2]
    rw [hrest.1, hrest.2.1, hrest.2.2]
    exact ⟨alookup_aset_self _ _ _, alookup_aset_self _ _ _, rfl⟩

/-- Counterexample for C2: a matching line for device 5, absent from
metadata, is NOT dropped: the memory map gains the entry
`{total: undefined, free: NaN}` and the sweep accumulator gains the device,
so neither is left unchanged. -/
theorem c2_cex :
    alookup stNoMeta.gpuInfo.totalMemory 5 = none
      ∧ parseStatLine statLine5 = some (5, 100, 7, 9)
      ∧ stNoMeta.gpuCoresMem = []
      ∧ (processGpuCoreInfo cfgPlain stNoMeta statLine5).1.gpuCoresMem
          = [(5, ⟨JsNum.undefVal, JsNum.nan⟩)]
      ∧ stNoMeta.tmpCoreNumbers = []
      ∧ (processGpuCoreInfo cfgPlain stNoMeta statLine5).1.tmpCoreNumbers = [5] := by
  refine ⟨by decide, by decide, by decide, by decide, by decide, by decide⟩

/-- Witness for the amended C2 on a known device: device 0 with metadata
total 8000 and used 146 is stored as `free = 7854`. -/
theorem c2_witness :
    alookup (processGpuCoreInfo cfgPlain stTwoKnown statLine0).1.gpuCoresMem 0
      = some ⟨JsNum.int 8000, JsNum.int 7854⟩ := by
  have h := (c2_free_mem_computation cfgPlain stTwoKnown statLine0 0 146 2 1
    (by decide)).2.1 8000 (by decide)
  exact h.trans (by decide)

/-- C3 (amended): the monitor NEVER asks the metadata collaborator to
re-resolve from the sample path: `_processGpuCoreInfo` leaves the resolver
state and the count of resolver invocations untouched on every line — even at
a sweep boundary where the observed device set differs in size from the
metadata-known set it silently installs the observed set and keeps running
with the stale metadata — and it emits no error signal (at most the healthy
edge). -/
theorem c3_no_metadata_reresolution (cfg : MonitorConfig) (st : MonitorState)
    (line : String) :
    (processGpuCoreInfo cfg st line).1.gpuInfo = st.gpuInfo
      ∧ (processGpuCoreInfo cfg st line).1.metadataResolveCalls
          = st.metadataResolveCalls
      ∧ ((processGpuCoreInfo cfg st line).2 = []
          ∨ (processGpuCoreInfo cfg st line).2 = [MonEvent.healthy]) := by
  have h := pgci_spec cfg st line
  exact ⟨h.2.2.2.2.1, h.2.2.2.2.2.1, h.2.2.2.2.2.2.2.2⟩

/-- Counterexample for C3: a repeated report for device 0 commits a sweep
whose observed set {0} differs in size from the metadata-known set {0, 1},
yet the resolver is not invoked (call count stays 0, resolver state is
untouched) and no error is emitted. -/
theorem c3_cex :
    stTwoKnown.gpuInfo.coreNumbers.length = 2
      ∧ stTwoKnown.tmpCoreNumbers = [0]
      ∧ (processGpuCoreInfo cfgPlain stTwoKnown statLine0).1.sweepCount
          = stTwoKnown.sweepCount + 1
      ∧ (processGpuCoreInfo cfgPlain stTwoKnown statLine0).1.coreNumbers = [0]
      ∧ (processGpuCoreInfo cfgPlain stTwoKnown statLine0).1.metadataResolveCalls = 0
      ∧ (processGpuCoreInfo cfgPlain stTwoKnown statLine0).1.gpuInfo
          = stTwoKnown.gpuInfo
      ∧ (processGpuCoreInfo cfgPlain stTwoKnown statLine0).2 = [] := by
  refine ⟨by decide, by decide, by decide, by decide, by decide, by decide, by decide⟩

/-- C5: after a sweep evaluation with rate policies configured on all three
dimensions, the published overload flag equals memoryOverloaded OR
encoderOverloaded OR decoderOverloaded (the encoder/decoder checks applied to
the freshly smoothed usage maps); the rate memory policy reports overloaded
iff some device carries the sentinel (`free < 0` or `total < 0`) or satisfies
`(total - free) / total > highWatermark`; and the rate utilization policy
reports overloaded iff `highWatermark × 100 <` the smoothed percent of some
device. -/
theorem c5_overload_flag_or (cfg : MonitorConfig) (st : MonitorState)
    (mhw ehw dhw : ℚ)
    (hm : cfg.memPolicy = .rate mhw)
    (he : cfg.encThreshold = .rate ehw)
    (hd : cfg.decThreshold = .rate dhw) :
    (processCoresStatistic cfg st).isOverloaded
        = (isMemOverloadedByRateThreshold mhw st.gpuCoresMem
            || isGpuUsageOverloadByRateThreshold ehw
                (processCoresStatistic cfg st).gpuEncodersUsage
            || isGpuUsageOverloadByRateThreshold dhw
                (processCoresStatistic cfg st).gpuDecodersUsage)
      ∧ (∀ coll : List (Nat × MemSample),
          isMemOverloadedByRateThreshold mhw coll = true ↔
            ∃ s ∈ coll, isMemOverloadedByIncorrectData s.2 = true
              ∨ jsRateGt mhw s.2 = true)
      ∧ (∀ t f : Int, t ≠ 0 →
          ((isMemOverloadedByIncorrectData ⟨.int t, .int f⟩ = true
              ∨ jsRateGt mhw ⟨.int t, .int f⟩ = true)
            ↔ (f < 0 ∨ t < 0 ∨ mhw < ((t : ℚ) - (f : ℚ)) / (t : ℚ))))
      ∧ (∀ coll : List (Nat × Int),
          isGpuUsageOverloadByRateThreshold ehw coll = true ↔
            ∃ s ∈ coll, ehw * 100 < (s.2 : ℚ)) := by
  refine ⟨?_, ?_, ?_, ?_⟩
  · simp [processCoresStatistic, evalMemPolicy, evalUtilThreshold, hm, he, hd]
  · intro coll
    simp [isMemOverloadedByRateThreshold, List.any_eq_true, Bool.or_eq_true]
  · intro t f ht
    simp only [isMemOverloadedByIncorrectData, jsLtInt, jsRateGt, if_neg ht,
      Bool.or_eq_true, decide_eq_true_eq, gt_iff_lt]
    tauto
  · intro coll
    simp [isGpuUsageOverloadByRateThreshold, List.any_eq_true]

/-- Witness for C5: a device whose sample carries the sentinel `free = -1`
makes the sweep evaluation publish `overloaded = true` under rate policies. -/
theorem c5_witness :
    (processCoresStatistic cfgRate stMemBad).isOverloaded = true := by
  have h := c5_overload_flag_or cfgRate stMemBad (3 / 4) (3 / 4) (3 / 4)
    rfl rfl rfl
  exact h.1.trans (by decide)

/-- C6: when the child process exits with status not Stopping, the exit
handler schedules exactly one restart after the fixed 1000 msec backoff and
emits exactly one error (whose message describes the exit code, or the signal
when the code is null) followed by `unhealthy`; when it exits while status is
Stopping, it instead sets status Stopped and emits exactly one `stopped`,
scheduling no restart (the restart timer is untouched). -/
theorem c6_exit_handler (st : MonitorState) (code : Option Int)
    (signal : String) :
    (st.status ≠ Status.stopping →
        watcherExitHandler st code signal
          = ({ st with
                healthy := false,
                restartTimer := some ⟨st.timerSeq, defaultRestartTimeoutMsec⟩,
                timerSeq := st.timerSeq + 1 },
             [MonEvent.errored (exitMessage code signal), MonEvent.unhealthy]))
      ∧ (st.status = Status.stopping →
          watcherExitHandler st code signal
            = ({ st with healthy := false, status := Status.stopped },
               [MonEvent.stopped])) := by
  constructor <;> intro h <;> simp [watcherExitHandler, h]

/-- Witness for C6: both exit-handler branches at concrete states; the
restart is armed with delay 1000 msec and the error names exit code 1. -/
theorem c6_witness :
    watcherExitHandler stWatch (some 1) "x"
        = ({ stWatch with
              healthy := false, restartTimer := some ⟨1, 1000⟩,
              timerSeq := 2 },
           [MonEvent.errored "\"nvidia-smi dmon\" finished with code 1",
            MonEvent.unhealthy])
      ∧ watcherExitHandler stStopping none "x"
        = ({ stStopping with healthy := false, status := Status.stopped },
           [MonEvent.stopped]) :=
  ⟨(c6_exit_handler stWatch (some 1) "x").1 (by decide),
   (c6_exit_handler stStopping none "x").2 rfl⟩

/-- C7: `stop()` on an already-stopped monitor is a no-op (the state is
returned unchanged, nothing is emitted, no process is signalled, and the
model throws nowhere on this path); with a restart timer pending it cancels
that timer, sets status Stopped and emits `stopped` without signalling any
process; otherwise it cancels the watchdog timer, sets status Stopping and
kills the child process, leaving finalization to the exit handler. -/
theorem c7_stop_behavior (st : MonitorState) :
    (st.status = Status.stopped → stop st = (st, [], false))
      ∧ (st.status ≠ Status.stopped → ∀ t, st.restartTimer = some t →
          stop st = ({ st with
                        healthyTimer := none, healthy := false,
                        restartTimer := none, status := Status.stopped },
                     [MonEvent.stopped], false))
      ∧ (st.status ≠ Status.stopped → st.restartTimer = none →
          stop st = ({ st with
                        healthyTimer := none, healthy := false,
                        status := Status.stopping }, [], true)) := by
  refine ⟨?_, ?_, ?_⟩
  · intro h
    simp [stop, h]
  · intro h t ht
    simp [stop, h, ht]
  · intro h ht
    simp [stop, h, ht]

/-- Witness for C7: the three `stop()` branches at concrete states. -/
theorem c7_witness :
    stop mkMonitorState = (mkMonitorState, [], false)
      ∧ stop stRestartPending
        = ({ stRestartPending with
              healthyTimer := none, healthy := false,
              restartTimer := none, status := Status.stopped },
           [MonEvent.stopped], false)
      ∧ stop stWatch
        = ({ stWatch with
              healthyTimer := none, healthy := false,
              status := Status.stopping }, [], true) :=
  ⟨(c7_stop_behavior mkMonitorState).1 rfl,
   (c7_stop_behavior stRestartPending).2.1 (by decide) ⟨7, 1000⟩ rfl,
   (c7_stop_behavior stWatch).2.2 (by decide) rfl⟩

/-- C9: calling `parseGpuMetaData` while a resolution is already in flight
(`_commandRunned` set) returns immediately: the external command is not
invoked a second time, no error is thrown, and the whole resolved state
(driver version, core numbers, product names, total-memory map) is left
untouched — the second caller receives nothing. -/
theorem c9_reentrancy_guard (g : GpuInfoState) (fetch : MetaFetch)
    (h : g.commandRunned = true) :
    parseGpuMetaData g fetch = ⟨g, false, false⟩ := by
  simp [parseGpuMetaData, h]

/-- Witness for C9 at a concrete in-flight resolver state: the result state
is the input state, unmodified, with no invocation and no throw. -/
theorem c9_witness :
    parseGpuMetaData gInFlight fetchTwo = ⟨gInFlight, false, false⟩ :=
  c9_reentrancy_guard gInFlight fetchTwo rfl

/-- C10: the overload flag is `true` at construction, a successful `start()`
from the fresh state keeps it `true` (with status Started), and any sequence
of stdout lines that commits no sweep leaves it `true`, so every successful
`isOverloaded()` call before the first full sweep returns `true`. -/
theorem c10_overload_true_before_first_sweep (cfg : MonitorConfig)
    (st1 : MonitorState) (lines : List String)
    (hstat : st1.status = Status.started) (hov : st1.isOverloaded = true)
    (hns : (processLines cfg st1 lines).sweepCount = st1.sweepCount) :
    mkMonitorState.isOverloaded = true
      ∧ (∀ fetch st2 cores, start mkMonitorState fetch = .ok (st2, cores) →
          st2.isOverloaded = true ∧ st2.status = Status.started)
      ∧ isOverloadedQuery (processLines cfg st1 lines) = .ok true := by
  refine ⟨rfl, ?_, ?_⟩
  · intro fetch st2 cores h
    unfold start at h
    rw [if_neg (by simp [mkMonitorState])] at h
    by_cases hth : (parseGpuMetaData mkMonitorState.gpuInfo fetch).threw
    · rw [if_pos hth] at h
      exact absurd h (by simp)
    · rw [if_neg hth] at h
      simp only [Except.ok.injEq, Prod.mk.injEq] at h
      rw [← h.1]
      exact ⟨rfl, rfl⟩
  · have hs := processLines_spec cfg lines st1
    have hstat2 : (processLines cfg st1 lines).status = Status.started := by
      rw [hs.1, hstat]
    unfold isOverloadedQuery
    rw [if_neg (by rw [hstat2]; exact fun hx => Status.noConfusion hx)]
    rw [hs.2.2 hns, hov]

/-- Witness for C10: a started monitor that has processed lines committing no
sweep answers `isOverloaded()` with `true`. -/
theorem c10_witness :
    isOverloadedQuery (processLines cfgPlain stNoMeta [statLine5, headerLine])
      = .ok true :=
  (c10_overload_true_before_first_sweep cfgPlain stNoMeta
    [statLine5, headerLine] rfl rfl (by decide)).2.2

end GpuMon
